import Mathlib

/-!
Verification development for the smart-browser-detection library
(`src/index.ts`, class `SmartBrowserDetection`).

The TypeScript source is shallowly embedded below.  Host-probe inputs
(`navigator`, `window`, `document`) are gathered in an `Env` record, the
single-slot detection cache in an `EngineState` record.  JS numbers carrying
confidence values are modelled as exact scaled naturals (see the Data model
section), JS strings as `String`, regular-expression version extraction as
explicit scanners over character lists that mirror the individual patterns
of `regexPatterns`.
-/

namespace SBD

/-- Substring test on character lists: does the haystack contain `n`
as a contiguous substring?  Mirrors JS `String.prototype.includes`. -/
def listSub (n : List Char) : List Char → Bool
  | [] => n.isEmpty
  | c :: rest => n.isPrefixOf (c :: rest) || listSub n rest

/-- `s.includes(pat)` from JS. -/
def jsIncludes (s pat : String) : Bool := listSub pat.data s.data

/-- Match `\d+\.\d+` at the start of `l`, returning the captured text
(used by the two-part version captures of `regexPatterns`). -/
def verAt (l : List Char) : Option String :=
  let d1 := l.takeWhile Char.isDigit
  if d1.isEmpty then none
  else
    match l.drop d1.length with
    | '.' :: r2 =>
      let d2 := r2.takeWhile Char.isDigit
      if d2.isEmpty then none else some (String.mk (d1 ++ '.' :: d2))
    | _ => none

/-- Match `\d+_\d+` at the start of `l` (the iOS version capture). -/
def verUAt (l : List Char) : Option String :=
  let d1 := l.takeWhile Char.isDigit
  if d1.isEmpty then none
  else
    match l.drop d1.length with
    | '_' :: r2 =>
      let d2 := r2.takeWhile Char.isDigit
      if d2.isEmpty then none else some (String.mk (d1 ++ '_' :: d2))
    | _ => none

/-- Match `\d+` at the start of `l` (the macOS version capture). -/
def digitsAt (l : List Char) : Option String :=
  let d := l.takeWhile Char.isDigit
  if d.isEmpty then none else some (String.mk d)

/-- Regex-engine style scanning: try the anchored matcher `f` at every
position, returning the leftmost match. -/
def scanFor (f : List Char → Option String) : List Char → Option String
  | [] => f []
  | c :: rest =>
    match f (c :: rest) with
    | some v => some v
    | none => scanFor f rest

/-- Anchored match of a literal token directly followed by `\d+\.\d+`. -/
def tokVerAt (tok : List Char) (s : List Char) : Option String :=
  if tok.isPrefixOf s then verAt (s.drop tok.length) else none

/-- Anchored match of a literal token, one `\s` character, then `\d+\.\d+`. -/
def tokWsVerAt (tok : List Char) (s : List Char) : Option String :=
  if tok.isPrefixOf s then
    match s.drop tok.length with
    | c :: r => if c.isWhitespace then verAt r else none
    | [] => none
  else none

/-- Decimal value of a digit list. -/
def natOfDigits (l : List Char) : Nat :=
  l.foldl (fun n c => n * 10 + (c.toNat - 48)) 0

/-- `parseInt` on an all-digit capture. -/
def toNatD (s : String) : Nat := natOfDigits s.data

/-- ASCII lower-casing of one character (the user-agent, vendor and token
strings handled by the library are ASCII). -/
def lcChar (c : Char) : Char :=
  if 'A' ≤ c ∧ c ≤ 'Z' then Char.ofNat (c.toNat + 32) else c

/-- `s.toLowerCase()` from JS, restricted to ASCII. -/
def jsToLower (s : String) : String := String.mk (s.data.map lcChar)

end SBD

namespace SBD

/-!
## Data model

Confidence values in the source are JS decimal literals with exactly two
fractional digits (0.6, 0.7, 0.8, 0.85, 0.9, 0.95).  We embed a confidence
`c` as the natural number `100 * c` (so `0.95 ↦ 95`), which represents every
literal exactly and keeps every comparison and every `count * confidence`
score comparison of the source intact (scaling by the constant 100 is
strictly monotone).  Comments at each literal show the source value.
-/

/-- `DetectionMethodResult` from the source: one extractor's candidate. -/
structure DetectionMethodResult where
  browser : String
  confidence : Nat
  method : String
  deriving Repr, DecidableEq

/-- `BrowserDetectionResult` from the source. -/
structure BrowserDetectionResult where
  browser : String
  browserVersion : String
  engine : String
  engineVersion : String
  platform : String
  os : String
  osVersion : String
  isMobile : Bool
  isTablet : Bool
  isDesktop : Bool
  confidence : Nat
  detectionMethods : List String
  userAgent : String
  vendor : String
  timestamp : Nat
  deriving Repr, DecidableEq

/-- `EngineInfo` from the source. -/
structure EngineInfo where
  engine : String
  version : String
  deriving Repr, DecidableEq

/-- `OSInfo` from the source. -/
structure OSInfo where
  os : String
  osVersion : String
  deriving Repr, DecidableEq

/-- `CacheStats` from the source. -/
structure CacheStats where
  size : Nat
  keys : List String
  deriving Repr, DecidableEq

/-- The bundle of host-probe outputs the class reads from `navigator`,
`window` and `document`.  Each field is the normalized truthiness/content
of the corresponding host expression. -/
structure Env where
  /-- `navigator.userAgent` -/
  userAgent : String
  /-- `navigator.vendor` -/
  vendor : String
  /-- `window.chrome && window.chrome.runtime && window.chrome.runtime.onConnect` is truthy -/
  chromeRuntimeOnConnect : Bool
  /-- `window.chrome && window.chrome.webstore` is truthy -/
  chromeWebstore : Bool
  /-- `window.InstallTrigger !== undefined` (declared in the source's global
  interface; present here so inputs with the Firefox install-hook are
  expressible) -/
  installTrigger : Bool
  /-- `window.safari && window.safari.pushNotification` is truthy -/
  safariPushNotification : Bool
  /-- `navigator.userAgentData.brands` when `navigator.userAgentData` and its
  `brands` field are truthy: the list of brand names -/
  userAgentDataBrands : Option (List String)
  /-- `window.opera && window.opera.version` is truthy -/
  operaVersion : Bool
  /-- `document.documentMode` is truthy -/
  documentMode : Bool
  /-- `'ontouchstart' in window` -/
  ontouchstart : Bool
  /-- `navigator.maxTouchPoints` -/
  maxTouchPoints : Nat
  /-- `window.innerWidth` -/
  innerWidth : Nat
  /-- the scratch element's `style.webkitTransform` is non-empty after the
  assignment in `cssDetection` -/
  webkitTransformSticks : Bool
  /-- the scratch element's `style.webkitAppearance` is non-empty after the
  assignment in `cssDetection` -/
  webkitAppearanceSticks : Bool
  /-- the DOM construction at the top of `cssDetection`
  (`createElement`/`appendChild`) does not throw; when it does, the
  internal `catch` swallows the error and the initial Unknown result is
  returned -/
  domOk : Bool
  /-- the host throws during `apiDetection` (caught by `detectBrowser`) -/
  apiThrows : Bool
  /-- the host throws during `vendorDetection` (caught by `detectBrowser`) -/
  vendorThrows : Bool
  /-- the host throws during `userAgentDetection` (caught by `detectBrowser`) -/
  uaThrows : Bool
  /-- `Date.now()` -/
  now : Nat
  deriving Repr, DecidableEq

/-- The mutable state of a `SmartBrowserDetection` instance: the single-slot
cache (`this.cache` can only ever hold the constant key
`'browser_detection'`). -/
structure EngineState where
  cache : Option BrowserDetectionResult
  deriving Repr, DecidableEq

/-!
## Signal extractors (`apiDetection`, `vendorDetection`,
`userAgentDetection`, `cssDetection`)
-/

/-- `apiDetection` from the source: Chrome runtime hook → Safari push
notification → `userAgentData.brands` containing "Microsoft Edge" → Opera
version object → IE `documentMode`, first match wins.  (Note: the source
has no Firefox branch.) -/
def apiDetection (env : Env) : DetectionMethodResult :=
  if env.chromeRuntimeOnConnect then
    { browser := "Chrome", confidence := 95, method := "apiDetection" }   -- 0.95
  else if env.safariPushNotification then
    { browser := "Safari", confidence := 95, method := "apiDetection" }   -- 0.95
  else
    match env.userAgentDataBrands with
    | some brands =>
      -- `brands.some(brand => brand.brand === 'Microsoft Edge')`; when it
      -- fails the else-if chain was already entered, so Opera/IE never run
      if brands.contains "Microsoft Edge" then
        { browser := "Edge", confidence := 95, method := "apiDetection" } -- 0.95
      else
        { browser := "Unknown", confidence := 0, method := "apiDetection" }
    | none =>
      if env.operaVersion then
        { browser := "Opera", confidence := 90, method := "apiDetection" } -- 0.9
      else if env.documentMode then
        { browser := "Internet Explorer", confidence := 95, method := "apiDetection" } -- 0.95
      else
        { browser := "Unknown", confidence := 0, method := "apiDetection" }

/-- `vendorDetection` from the source. -/
def vendorDetection (env : Env) : DetectionMethodResult :=
  let vendor := jsToLower env.vendor
  let ua := jsToLower env.userAgent
  if jsIncludes ua "edg" then
    { browser := "Edge", confidence := 90, method := "vendorDetection" }   -- 0.9
  else if jsIncludes vendor "google" then
    { browser := "Chrome", confidence := 90, method := "vendorDetection" } -- 0.9
  else if jsIncludes vendor "apple" then
    { browser := "Safari", confidence := 90, method := "vendorDetection" } -- 0.9
  else if jsIncludes vendor "mozilla" then
    { browser := "Firefox", confidence := 80, method := "vendorDetection" } -- 0.8
  else if vendor = "" then
    if jsIncludes ua "edg" || jsIncludes ua "edge" then
      { browser := "Edge", confidence := 80, method := "vendorDetection" } -- 0.8
    else if jsIncludes ua "android" && jsIncludes ua "chrome" && jsIncludes ua "safari" then
      { browser := "Edge", confidence := 70, method := "vendorDetection" } -- 0.7
    else
      { browser := "Unknown", confidence := 0, method := "vendorDetection" }
  else
    { browser := "Unknown", confidence := 0, method := "vendorDetection" }

/-- `userAgentDetection` from the source. -/
def userAgentDetection (env : Env) : DetectionMethodResult :=
  let ua := jsToLower env.userAgent
  if jsIncludes ua "edg" then
    { browser := "Edge", confidence := 85, method := "userAgentDetection" } -- 0.85
  else if jsIncludes ua "chrome" && !jsIncludes ua "edg" && !jsIncludes ua "opr" then
    -- Chrome 0.8, upgraded to 0.95 when the `crios` token is present
    { browser := "Chrome", confidence := if jsIncludes ua "crios" then 95 else 80,
      method := "userAgentDetection" }
  else if jsIncludes ua "safari" && jsIncludes (jsToLower env.vendor) "google" then
    { browser := "Chrome", confidence := 85, method := "userAgentDetection" } -- 0.85
  else if jsIncludes ua "edge" then
    { browser := "Edge", confidence := 85, method := "userAgentDetection" } -- 0.85
  else if jsIncludes ua "android" && jsIncludes ua "chrome" && jsIncludes ua "safari" &&
      !jsIncludes ua "firefox" && env.vendor = "" then
    { browser := "Edge", confidence := 80, method := "userAgentDetection" } -- 0.8
  else if jsIncludes ua "firefox" || jsIncludes ua "fxios" then
    { browser := "Firefox", confidence := 85, method := "userAgentDetection" } -- 0.85
  else if jsIncludes ua "safari" && !jsIncludes ua "chrome" then
    { browser := "Safari", confidence := 70, method := "userAgentDetection" } -- 0.7
  else if jsIncludes ua "opr" || jsIncludes ua "opera" then
    { browser := "Opera", confidence := 85, method := "userAgentDetection" } -- 0.85
  else if jsIncludes ua "msie" || jsIncludes ua "trident" then
    { browser := "Internet Explorer", confidence := 95, method := "userAgentDetection" } -- 0.95
  else
    { browser := "Unknown", confidence := 0, method := "userAgentDetection" }

/-- `cssDetection` from the source: progressive mutation of `result`
modelled as a chain of overwrites.  The Chrome and Safari probes are only
trusted together with the corresponding API object; the Edge user-agent
check afterwards is unconditional and overwrites them. -/
def cssDetection (env : Env) : DetectionMethodResult :=
  if env.domOk then
    let r0 : DetectionMethodResult :=
      { browser := "Unknown", confidence := 0, method := "cssDetection" }
    let r1 :=
      if env.webkitTransformSticks && env.chromeWebstore then
        { browser := "Chrome", confidence := 70, method := "cssDetection" } -- 0.7
      else r0
    let r2 :=
      if env.webkitAppearanceSticks && env.safariPushNotification then
        { browser := "Safari", confidence := 70, method := "cssDetection" } -- 0.7
      else r1
    let ua := jsToLower env.userAgent
    if jsIncludes ua "edg" || jsIncludes ua "edge" then
      { browser := "Edge", confidence := 70, method := "cssDetection" }    -- 0.7
    else if jsIncludes ua "android" && jsIncludes ua "chrome" && jsIncludes ua "safari" &&
        env.vendor = "" then
      { browser := "Edge", confidence := 60, method := "cssDetection" }    -- 0.6
    else r2
  else
    { browser := "Unknown", confidence := 0, method := "cssDetection" }

/-!
## Fusion (`selectBestResult`)

The three JS records `browserCounts`, `browserConfidences` and
`browserResults` are filled in one `forEach` pass and share key-insertion
order; we model them as one association list of `Group` entries built by
the same pass (`upsert`), preserving first-insertion order exactly as
`Object.keys` does.
-/

/-- One label's entry across the three records of `selectBestResult`. -/
structure Group where
  browser : String
  count : Nat
  maxConf : Nat
  lastR : DetectionMethodResult
  deriving Repr, DecidableEq

/-- One iteration of the grouping `forEach`: bump the count, fold the
running maximum (`Math.max(browserConfidences[b] || 0, confidence)`), and
overwrite `browserResults[b]` with the newest candidate. -/
def upsert : List Group → DetectionMethodResult → List Group
  | [], r => [⟨r.browser, 1, max 0 r.confidence, r⟩]
  | g :: gs, r =>
    if g.browser = r.browser then
      ⟨g.browser, g.count + 1, max g.maxConf r.confidence, r⟩ :: gs
    else
      g :: upsert gs r

/-- The grouped records after the full `forEach` pass. -/
def groupsOf (l : List DetectionMethodResult) : List Group := l.foldl upsert []

/-- The body of the `Object.keys(browserCounts).forEach` selection loop:
Edge with `count >= 2` overwrites the running best unconditionally, then
Chrome with max confidence `>= 0.9`, then plain strict score comparison
(`score > bestScore`). -/
def selStep (best : String × Nat) (g : Group) : String × Nat :=
  let score := g.count * g.maxConf
  if g.browser = "Edge" ∧ 2 ≤ g.count then (g.browser, score)
  else if g.browser = "Chrome" ∧ 90 ≤ g.maxConf then (g.browser, score)  -- 0.9
  else if best.2 < score then (g.browser, score)
  else best

/-- `selectBestResult`'s return value (a `Partial<BrowserDetectionResult>`
holding browser, confidence and contributing methods). -/
structure SelResult where
  browser : String
  confidence : Nat
  detectionMethods : List String
  deriving Repr, DecidableEq

/-- `selectBestResult` from the source. -/
def selectBestResult (l : List DetectionMethodResult) : SelResult :=
  let gs := groupsOf l
  let best := gs.foldl selStep ("Unknown", 0)
  let bestR := (gs.find? (fun g => g.browser == best.1)).map (fun g => g.lastR)
  { browser := best.1
    confidence := match bestR with | some r => r.confidence | none => 0
    detectionMethods := (l.filter (fun r => r.browser == best.1)).map (fun r => r.method) }

/-!
## Device-class heuristics (`detectMobile`, `detectTablet`)
-/

def mobileKeywords : List String :=
  ["mobile", "android", "iphone", "ipod", "blackberry",
   "windows phone", "opera mini", "iemobile"]

def tabletKeywords : List String := ["ipad", "tablet", "playbook", "silk"]

/-- `detectMobile` from the source. -/
def detectMobile (env : Env) : Bool :=
  let ua := jsToLower env.userAgent
  let hasMobileKeyword := mobileKeywords.any (fun k => jsIncludes ua k)
  let hasTouch := env.ontouchstart || decide (0 < env.maxTouchPoints)
  let isSmallScreen := decide (env.innerWidth ≤ 768)
  hasMobileKeyword || (hasTouch && isSmallScreen)

/-- `detectTablet` from the source. -/
def detectTablet (env : Env) : Bool :=
  let ua := jsToLower env.userAgent
  let hasTabletKeyword := tabletKeywords.any (fun k => jsIncludes ua k)
  let isTabletSize := decide (768 < env.innerWidth) && decide (env.innerWidth ≤ 1024)
  let hasTouch := env.ontouchstart || decide (0 < env.maxTouchPoints)
  hasTabletKeyword || (hasTouch && isTabletSize)

/-!
## Version / engine / OS resolvers
-/

/-- `getBrowserVersion` from the source: one pre-compiled pattern per
label (`regexPatterns`), applied case-insensitively to the raw user-agent
(modelled by scanning its lower-cased form), `'Unknown'` on failure.
The patterns: `chrome\/(\d+\.\d+)`, `firefox\/(\d+\.\d+)`,
`version\/(\d+\.\d+)`, `edg\/(\d+\.\d+)`, `(?:opera|opr)\/(\d+\.\d+)`,
`(?:msie\s(\d+\.\d+)|rv:(\d+\.\d+))`. -/
def getBrowserVersion (ua : String) (browser : String) : String :=
  let low := (jsToLower ua).data
  if browser = "Chrome" then
    (scanFor (tokVerAt "chrome/".data) low).getD "Unknown"
  else if browser = "Firefox" then
    (scanFor (tokVerAt "firefox/".data) low).getD "Unknown"
  else if browser = "Safari" then
    (scanFor (tokVerAt "version/".data) low).getD "Unknown"
  else if browser = "Edge" then
    (scanFor (tokVerAt "edg/".data) low).getD "Unknown"
  else if browser = "Opera" then
    (scanFor (fun s =>
      match tokVerAt "opera/".data s with
      | some v => some v
      | none => tokVerAt "opr/".data s) low).getD "Unknown"
  else if browser = "Internet Explorer" then
    (scanFor (fun s =>
      match tokWsVerAt "msie".data s with
      | some v => some v
      | none => tokVerAt "rv:".data s) low).getD "Unknown"
  else
    "Unknown"

/-- `getEngineInfo` from the source: the fixed `engineMap`, whose version
field is `getBrowserVersion` for the six known labels and `'Unknown'` for
the Unknown label. -/
def getEngineInfo (ua : String) (browser : String) : EngineInfo :=
  if browser = "Chrome" then ⟨"Blink", getBrowserVersion ua browser⟩
  else if browser = "Edge" then ⟨"Blink", getBrowserVersion ua browser⟩
  else if browser = "Firefox" then ⟨"Gecko", getBrowserVersion ua browser⟩
  else if browser = "Safari" then ⟨"WebKit", getBrowserVersion ua browser⟩
  else if browser = "Opera" then ⟨"Blink", getBrowserVersion ua browser⟩
  else if browser = "Internet Explorer" then ⟨"Trident", getBrowserVersion ua browser⟩
  else ⟨"Unknown", "Unknown"⟩

/-- `windows nt (10\.0|6\.3|6\.2|6\.1)` applied to the lower-cased UA. -/
def windowsVer (low : String) : Option String :=
  scanFor (fun s =>
    if "windows nt ".data.isPrefixOf s then
      (["10.0", "6.3", "6.2", "6.1"].find? (fun v => v.data.isPrefixOf (s.drop "windows nt ".data.length)))
    else none) low.data

/-- `mac os x 10_(\d+)` applied to the lower-cased UA. -/
def macosVer (low : String) : Option String :=
  scanFor (fun s =>
    if "mac os x 10_".data.isPrefixOf s then digitsAt (s.drop "mac os x 10_".data.length)
    else none) low.data

/-- `android\s(\d+\.\d+)` applied to the lower-cased UA. -/
def androidVer (low : String) : Option String :=
  scanFor (tokWsVerAt "android".data) low.data

/-- `os\s(\d+_\d+)` applied to the lower-cased UA. -/
def iosVer (low : String) : Option String :=
  scanFor (fun s =>
    if "os".data.isPrefixOf s then
      match s.drop 2 with
      | c :: r => if c.isWhitespace then verUAt r else none
      | [] => none
    else none) low.data

/-- `getOSInfo` from the source. -/
def getOSInfo (ua : String) : OSInfo :=
  let low := jsToLower ua
  if jsIncludes low "win" || jsIncludes low "windows" then
    { os := "Windows"
      osVersion :=
        match windowsVer low with
        | some v =>
          if v = "10.0" then "Windows 10/11"
          else if v = "6.3" then "Windows 8.1"
          else if v = "6.2" then "Windows 8"
          else if v = "6.1" then "Windows 7"
          else "Unknown"
        | none => "Unknown" }
  else if jsIncludes low "mac" || jsIncludes low "macintosh" then
    { os := "macOS"
      osVersion :=
        match macosVer low with
        | some vstr =>
          let v := toNatD vstr
          if 15 ≤ v then "macOS Big Sur+"
          else if 14 ≤ v then "macOS Mojave"
          else if 13 ≤ v then "macOS High Sierra"
          else "Unknown"
        | none => "Unknown" }
  else if jsIncludes low "linux" || jsIncludes low "x11" then
    { os := "Linux", osVersion := "Linux" }
  else if jsIncludes low "android" then
    { os := "Android"
      osVersion :=
        match androidVer low with
        | some v => "Android " ++ v
        | none => "Android" }
  else if jsIncludes low "iphone" || jsIncludes low "ipad" || jsIncludes low "ipod" then
    { os := "iOS"
      osVersion :=
        match iosVer low with
        | some v => "iOS " ++ v.replace "_" "."
        | none => "iOS" }
  else
    { os := "Unknown", osVersion := "Unknown" }

/-!
## `detectBrowser` and the cache
-/

/-- The `methodResults` list collected by `detectBrowser`'s loop over the
four detection methods: a method that throws is skipped (via the
per-method `catch`), and results labelled Unknown are not pushed.
`cssDetection` contains its own internal catch-all and cannot throw. -/
def methodResults (env : Env) : List DetectionMethodResult :=
  (([ if env.apiThrows then none else some (apiDetection env),
      if env.vendorThrows then none else some (vendorDetection env),
      if env.uaThrows then none else some (userAgentDetection env),
      some (cssDetection env) ] : List (Option DetectionMethodResult)).filterMap id).filter
    (fun r => !(r.browser == "Unknown"))

/-- `detectBrowser` from the source, with the cache made explicit: returns
the cached entry when present, otherwise builds the result (fusion, device
class, engine, OS, version), stores it, and returns it. -/
def detectBrowser (env : Env) (s : EngineState) : BrowserDetectionResult × EngineState :=
  match s.cache with
  | some cached => (cached, s)
  | none =>
    let ms := methodResults env
    let base : BrowserDetectionResult :=
      { browser := "Unknown", browserVersion := "Unknown", engine := "Unknown",
        engineVersion := "Unknown", platform := "Unknown", os := "Unknown",
        osVersion := "Unknown", isMobile := false, isTablet := false,
        isDesktop := false, confidence := 0, detectionMethods := [],
        userAgent := env.userAgent, vendor := env.vendor, timestamp := env.now }
    let withSel :=
      if ms.isEmpty then base
      else
        let f := selectBestResult ms
        { base with browser := f.browser, confidence := f.confidence,
                    detectionMethods := f.detectionMethods }
    let m := detectMobile env
    let t := detectTablet env
    let withDevice := { withSel with isMobile := m, isTablet := t, isDesktop := !m && !t }
    let ei := getEngineInfo env.userAgent withDevice.browser
    let withEngine := { withDevice with engine := ei.engine, engineVersion := ei.version }
    let oi := getOSInfo env.userAgent
    let withOS := { withEngine with os := oi.os, osVersion := oi.osVersion }
    let final := { withOS with browserVersion := getBrowserVersion env.userAgent withOS.browser }
    (final, { cache := some final })

/-- `clearCache` from the source. -/
def clearCache (_s : EngineState) : EngineState := { cache := none }

/-- `getCacheStats` from the source (`this.cache` holds at most the one
constant key `'browser_detection'`). -/
def getCacheStats (s : EngineState) : CacheStats :=
  match s.cache with
  | some _ => { size := 1, keys := ["browser_detection"] }
  | none => { size := 0, keys := [] }

end SBD

namespace SBD

/-- A fully absent host environment: empty strings, no API hooks, desktop
viewport, nothing throws. -/
def baseEnv : Env :=
  { userAgent := "", vendor := "", chromeRuntimeOnConnect := false,
    chromeWebstore := false, installTrigger := false,
    safariPushNotification := false, userAgentDataBrands := none,
    operaVersion := false, documentMode := false, ontouchstart := false,
    maxTouchPoints := 0, innerWidth := 1280, webkitTransformSticks := false,
    webkitAppearanceSticks := false, domOk := true, apiThrows := false,
    vendorThrows := false, uaThrows := false, now := 0 }

/-!
## Statement-side helper definitions

These express the quantities the specification talks about (per-label
candidate count, per-label maximum confidence, last candidate per label,
exclusive device classification) directly over the candidate list, so the
claims can be stated independently of the grouping pass.
-/

/-- Number of candidates carrying label `b`. -/
def countIn (l : List DetectionMethodResult) (b : String) : Nat :=
  (l.filter (fun r => r.browser == b)).length

/-- Maximum confidence among candidates carrying label `b` (0 when none). -/
def maxConfIn (l : List DetectionMethodResult) (b : String) : Nat :=
  (l.filter (fun r => r.browser == b)).foldl (fun m r => max m r.confidence) 0

/-- Like `maxConfIn` but folded from an arbitrary start value (used to
characterize the grouping pass). -/
def mFold (m : Nat) (l : List DetectionMethodResult) (b : String) : Nat :=
  (l.filter (fun r => r.browser == b)).foldl (fun a r => max a r.confidence) m

/-- The last candidate in `l` carrying label `b`, if any. -/
def lastIn (l : List DetectionMethodResult) (b : String) : Option DetectionMethodResult :=
  l.reverse.find? (fun r => r.browser == b)

/-- Exactly one of three booleans is set. -/
abbrev exactlyOne (a b c : Bool) : Prop :=
  (a = true ∧ b = false ∧ c = false) ∨ (a = false ∧ b = true ∧ c = false) ∨
  (a = false ∧ b = false ∧ c = true)

/-- Match `\d+\.\d+(?:\.\d+)?` at the start of `l` (greedy optional third
part), the capture shape of the last-resort generic version pattern that
the repository's other checked-in copy of the class applies when every
label-specific pattern has failed. -/
def ver3At (l : List Char) : Option String :=
  let d1 := l.takeWhile Char.isDigit
  if d1.isEmpty then none
  else
    match l.drop d1.length with
    | '.' :: r2 =>
      let d2 := r2.takeWhile Char.isDigit
      if d2.isEmpty then none
      else
        match r2.drop d2.length with
        | '.' :: r3 =>
          let d3 := r3.takeWhile Char.isDigit
          if d3.isEmpty then some (String.mk (d1 ++ '.' :: d2))
          else some (String.mk (d1 ++ '.' :: d2 ++ '.' :: d3))
        | _ => some (String.mk (d1 ++ '.' :: d2))
    | _ => none

/-- The last-resort generic numeric-version extraction described by the
spec (`ua.match(/(\d+\.\d+(?:\.\d+)?)/)` in the repository's other
checked-in copy): the first dotted number found anywhere in the raw
user-agent. -/
def genericVersion (ua : String) : Option String := scanFor ver3At ua.data

end SBD

namespace SBD

/-!
## Helper lemmas
-/

/-- On a cache miss, `detectBrowser`'s `isMobile` field is `detectMobile`. -/
theorem isMobile_detectBrowser (env : Env) :
    (detectBrowser env ⟨none⟩).1.isMobile = detectMobile env := rfl

/-- On a cache miss, `detectBrowser`'s `isTablet` field is `detectTablet`. -/
theorem isTablet_detectBrowser (env : Env) :
    (detectBrowser env ⟨none⟩).1.isTablet = detectTablet env := rfl

/-- On a cache miss, `detectBrowser`'s `isDesktop` field is the negation of
both device flags. -/
theorem isDesktop_detectBrowser (env : Env) :
    (detectBrowser env ⟨none⟩).1.isDesktop = (!detectMobile env && !detectTablet env) := rfl

/-- Filtering a cons for a matching head. -/
theorem countIn_cons_pos {r : DetectionMethodResult} {t : List DetectionMethodResult}
    {b : String} (h : r.browser = b) : countIn (r :: t) b = countIn t b + 1 := by
  have hb : (r.browser == b) = true := by simp [h]
  simp [countIn, List.filter, hb]

/-- Filtering a cons for a non-matching head. -/
theorem countIn_cons_neg {r : DetectionMethodResult} {t : List DetectionMethodResult}
    {b : String} (h : ¬ r.browser = b) : countIn (r :: t) b = countIn t b := by
  have hb : (r.browser == b) = false := by simp [h]
  simp [countIn, List.filter, hb]

/-- Folding the running maximum through a matching head. -/
theorem mFold_cons_pos {r : DetectionMethodResult} {t : List DetectionMethodResult}
    {b : String} {m : Nat} (h : r.browser = b) :
    mFold m (r :: t) b = mFold (max m r.confidence) t b := by
  have hb : (r.browser == b) = true := by simp [h]
  simp [mFold, List.filter, hb]

/-- Folding the running maximum through a non-matching head. -/
theorem mFold_cons_neg {r : DetectionMethodResult} {t : List DetectionMethodResult}
    {b : String} {m : Nat} (h : ¬ r.browser = b) : mFold m (r :: t) b = mFold m t b := by
  have hb : (r.browser == b) = false := by simp [h]
  simp [mFold, List.filter, hb]

/-- Last matching candidate of a cons, matching head: the head is the
fallback when the tail has no match. -/
theorem lastIn_cons_pos {r : DetectionMethodResult} {t : List DetectionMethodResult}
    {b : String} (h : r.browser = b) :
    lastIn (r :: t) b = some ((lastIn t b).getD r) := by
  have hb : (r.browser == b) = true := by simp [h]
  simp only [lastIn, List.reverse_cons, List.find?_append]
  cases t.reverse.find? (fun x => x.browser == b) <;> simp [List.find?, hb]

/-- Last matching candidate of a cons, non-matching head. -/
theorem lastIn_cons_neg {r : DetectionMethodResult} {t : List DetectionMethodResult}
    {b : String} (h : ¬ r.browser = b) : lastIn (r :: t) b = lastIn t b := by
  have hb : (r.browser == b) = false := by simp [h]
  simp only [lastIn, List.reverse_cons, List.find?_append]
  cases t.reverse.find? (fun x => x.browser == b) <;> simp [List.find?, hb]

/-- Effect of one grouping step on the record lookup for label `b`. -/
theorem find?_upsert (gs : List Group) (r : DetectionMethodResult) (b : String) :
    (upsert gs r).find? (fun g => g.browser == b) =
      if r.browser = b then
        match gs.find? (fun g => g.browser == b) with
        | some g0 => some ⟨g0.browser, g0.count + 1, max g0.maxConf r.confidence, r⟩
        | none => some ⟨r.browser, 1, max 0 r.confidence, r⟩
      else gs.find? (fun g => g.browser == b) := by
  induction gs with
  | nil =>
    by_cases hb : r.browser = b
    · have hb' : (r.browser == b) = true := by simp [hb]
      simp [upsert, List.find?, hb', hb]
    · have hb' : (r.browser == b) = false := by simp [hb]
      simp [upsert, List.find?, hb', hb]
  | cons g gs ih =>
    by_cases hgr : g.browser = r.browser
    · have hup : upsert (g :: gs) r =
          ⟨g.browser, g.count + 1, max g.maxConf r.confidence, r⟩ :: gs := by
        simp [upsert, hgr]
      by_cases hb : r.browser = b
      · have hgb : g.browser = b := hgr.trans hb
        have hgb' : (g.browser == b) = true := by simp [hgb]
        rw [hup]
        simp [List.find?, hgb', hb]
      · have hgb : ¬ g.browser = b := fun hh => hb (hgr.symm.trans hh)
        have hgb' : (g.browser == b) = false := by simp [hgb]
        rw [hup]
        simp [List.find?, hgb', hb]
    · have hup : upsert (g :: gs) r = g :: upsert gs r := by
        simp [upsert, hgr]
      rw [hup]
      by_cases hgb : g.browser = b
      · have hb : ¬ r.browser = b := fun hh => hgr (hgb.trans hh.symm)
        have hgb' : (g.browser == b) = true := by simp [hgb]
        simp [List.find?, hgb', hb]
      · have hgb' : (g.browser == b) = false := by simp [hgb]
        simp only [List.find?, hgb', ih]

/-- Full characterization of the grouping pass started from an arbitrary
record state: for each label the final entry accumulates the candidate
count, the running maximum confidence and the last matching candidate. -/
theorem groups_foldl_find (l : List DetectionMethodResult) (gs : List Group) (b : String) :
    (l.foldl upsert gs).find? (fun g => g.browser == b) =
      match gs.find? (fun g => g.browser == b) with
      | some g0 =>
        some ⟨g0.browser, g0.count + countIn l b, mFold g0.maxConf l b,
              (lastIn l b).getD g0.lastR⟩
      | none => (lastIn l b).map (fun r => ⟨b, countIn l b, mFold 0 l b, r⟩) := by
  induction l generalizing gs with
  | nil =>
    cases h : gs.find? (fun g => g.browser == b) <;>
      simp [countIn, mFold, lastIn, h]
  | cons r t ih =>
    show (t.foldl upsert (upsert gs r)).find? (fun g => g.browser == b) = _
    rw [ih (upsert gs r), find?_upsert]
    by_cases hb : r.browser = b
    · rw [if_pos hb]
      simp only [countIn_cons_pos hb, mFold_cons_pos hb, lastIn_cons_pos hb]
      cases h : gs.find? (fun g => g.browser == b) <;> cases hl : lastIn t b <;>
        simp [hb] <;> omega
    · rw [if_neg hb]
      simp only [countIn_cons_neg hb, mFold_cons_neg hb, lastIn_cons_neg hb]

/-- The grouped records of a full pass, looked up at any label. -/
theorem groupsOf_find (l : List DetectionMethodResult) (b : String) :
    (groupsOf l).find? (fun g => g.browser == b) =
      (lastIn l b).map (fun r => ⟨b, countIn l b, mFold 0 l b, r⟩) := by
  have h := groups_foldl_find l [] b
  simpa [groupsOf, List.find?] using h

/-- The selection loop never moves off a state it cannot beat: when the
running best is an Edge state whose score no later label exceeds, and no
later label is Edge itself or triggers the Chrome override, the fold
returns the state unchanged. -/
theorem selFold_const (gs : List Group) (s : String × Nat)
    (h : ∀ x ∈ gs, ¬ x.browser = "Edge" ∧ ¬(x.browser = "Chrome" ∧ 90 ≤ x.maxConf) ∧
        x.count * x.maxConf ≤ s.2) :
    gs.foldl selStep s = s := by
  induction gs with
  | nil => rfl
  | cons x gs ih =>
    have hx := h x (by simp)
    have hstep : selStep s x = s := by
      unfold selStep
      rw [if_neg (fun hh => hx.1 hh.1), if_neg hx.2.1,
          if_neg (Nat.not_lt.2 hx.2.2)]
    rw [List.foldl_cons, hstep]
    exact ih (fun y hy => h y (by simp [hy]))

end SBD

namespace SBD

/-!
## Claims
-/

/-- C1 (counterexample): on the input bundle with user-agent
`"android tablet"` (a mobile keyword and a tablet keyword both present, as
in real Android tablet user-agents), empty vendor, no touch, desktop
viewport, the result of `detectBrowser` has `isMobile` and `isTablet` both
true, so it does NOT have exactly one of the three device flags set. -/
theorem c1_counterexample :
    ¬ exactlyOne (detectBrowser { baseEnv with userAgent := "android tablet" } ⟨none⟩).1.isMobile
        (detectBrowser { baseEnv with userAgent := "android tablet" } ⟨none⟩).1.isTablet
        (detectBrowser { baseEnv with userAgent := "android tablet" } ⟨none⟩).1.isDesktop := by
  decide

/-- C1 (amended): for every input signal bundle, at least one of
`isMobile`, `isTablet`, `isDesktop` is true and `isDesktop` is true exactly
when both `isMobile` and `isTablet` are false; `isMobile` and `isTablet`
can however hold simultaneously (the two keyword lists are tested
independently), so the three flags need not be mutually exclusive. -/
theorem c1_amended (env : Env) (s : EngineState) (h : s.cache = none) :
    ((detectBrowser env s).1.isMobile || (detectBrowser env s).1.isTablet ||
      (detectBrowser env s).1.isDesktop) = true ∧
    (detectBrowser env s).1.isDesktop =
      (!(detectBrowser env s).1.isMobile && !(detectBrowser env s).1.isTablet) := by
  obtain ⟨c⟩ := s
  simp only at h
  subst h
  rw [isMobile_detectBrowser, isTablet_detectBrowser, isDesktop_detectBrowser]
  cases detectMobile env <;> cases detectTablet env <;> simp

/-- C1 (witness for the amended claim) at the all-absent environment. -/
theorem c1_amended_witness :
    ((detectBrowser baseEnv ⟨none⟩).1.isMobile || (detectBrowser baseEnv ⟨none⟩).1.isTablet ||
      (detectBrowser baseEnv ⟨none⟩).1.isDesktop) = true ∧
    (detectBrowser baseEnv ⟨none⟩).1.isDesktop =
      (!(detectBrowser baseEnv ⟨none⟩).1.isMobile && !(detectBrowser baseEnv ⟨none⟩).1.isTablet) :=
  c1_amended baseEnv ⟨none⟩ rfl

/-- C4 (code evaluation at the failing input): with `window.InstallTrigger`
defined and every other browser-exclusive hook absent, `apiDetection` in
`src/index.ts` returns the Unknown candidate instead of the Firefox
candidate required by the claim, the CHANGELOG (1.0.1 "Added
Firefox-specific API detection using `window.InstallTrigger`") and the
test suite ("should detect Firefox via API"): the function has no Firefox
branch at all and starts with the Chrome check. -/
theorem c4_firefox_hook_ignored :
    apiDetection { baseEnv with installTrigger := true } =
      { browser := "Unknown", confidence := 0, method := "apiDetection" } := by
  decide

/-- C5 (code evaluation at the failing input): for the Firefox label and a
user-agent whose Firefox pattern fails, `getBrowserVersion` in
`src/index.ts` returns "Unknown" even though a dotted number ("5.0") is
present in the user-agent, i.e. the last-resort generic numeric-version
extraction described by the spec (and implemented in the repository's
other checked-in copy of the class, per CHANGELOG 1.0.2 "Generic Version
Fallback") is absent from this copy. -/
theorem c5_no_generic_fallback :
    getBrowserVersion "Mozilla/5.0 (X11; Ubuntu)" "Firefox" = "Unknown" ∧
    genericVersion "Mozilla/5.0 (X11; Ubuntu)" = some "5.0" := by
  decide

/-- C8 (code evaluation at the failing inputs): `getOSInfo` in
`src/index.ts` returns osVersion "Unknown" — not the bare OS family name —
for a recognized Windows user-agent carrying no version token, and
likewise "Unknown" — not a generic "macOS 12" string — for a recognized
macOS user-agent whose version token (10_12) has no entry in the banded
lookup; the fallbacks the claim describes exist only in the repository's
other checked-in copy (CHANGELOG 1.0.1 "Added fallback for Windows without
specific version", "support for more macOS versions"). -/
theorem c8_os_fallbacks_missing :
    getOSInfo "windows" = { os := "Windows", osVersion := "Unknown" } ∧
    getOSInfo "mac os x 10_12" = { os := "macOS", osVersion := "Unknown" } := by
  decide

/-- C9: whenever the lower-cased user-agent contains "edg" or "edge" and
the DOM probing at the top of `cssDetection` does not throw, the extractor
returns the Edge candidate at confidence 0.7 (= 70 in the scaled
encoding), regardless of the Chrome/Safari capability objects and of the
webkit prefix probes: the unconditional Edge user-agent check comes after
the Chrome and Safari assignments and overwrites them. -/
theorem c9_css_edge_overwrites (env : Env) (hdom : env.domOk = true)
    (hedge : (jsIncludes (jsToLower env.userAgent) "edg" ||
              jsIncludes (jsToLower env.userAgent) "edge") = true) :
    cssDetection env = { browser := "Edge", confidence := 70, method := "cssDetection" } := by
  simp only [cssDetection, hdom, if_true]
  rw [hedge]
  simp

/-- C9 (witness): an environment where the Chrome and Safari probes all
succeed and the user-agent still contains "edg". -/
theorem c9_css_edge_overwrites_witness :
    cssDetection
      { baseEnv with
        userAgent := "Mozilla/5.0 Chrome/120.0 Safari/537.36 Edg/120.0",
        chromeWebstore := true, webkitTransformSticks := true,
        safariPushNotification := true, webkitAppearanceSticks := true } =
      { browser := "Edge", confidence := 70, method := "cssDetection" } :=
  c9_css_edge_overwrites _ rfl (by decide)

/-- C10 (counterexample): the user-agent "win linux android" contains both
"linux" and "android", yet `getOSInfo` classifies it as Windows (the `win`
token is tested first), so the first half of the claim fails as a
universal statement. -/
theorem c10_counterexample :
    jsIncludes (jsToLower "win linux android") "linux" = true ∧
    jsIncludes (jsToLower "win linux android") "android" = true ∧
    (getOSInfo "win linux android").os ≠ "Linux" := by
  decide

/-- C10 (amended): (a) every user-agent containing both "linux" and
"android" and containing none of the earlier-tested Windows and macOS
tokens resolves to os "Linux", osVersion "Linux"; (b) the Android branch
is reachable only for user-agents containing "android" but none of the
win/windows, mac/macintosh, linux, x11 tokens. -/
theorem c10_amended (ua : String) :
    ((jsIncludes (jsToLower ua) "win" || jsIncludes (jsToLower ua) "windows") = false →
     (jsIncludes (jsToLower ua) "mac" || jsIncludes (jsToLower ua) "macintosh") = false →
     jsIncludes (jsToLower ua) "linux" = true →
     jsIncludes (jsToLower ua) "android" = true →
     getOSInfo ua = { os := "Linux", osVersion := "Linux" }) ∧
    ((getOSInfo ua).os = "Android" →
     jsIncludes (jsToLower ua) "android" = true ∧
     jsIncludes (jsToLower ua) "win" = false ∧ jsIncludes (jsToLower ua) "windows" = false ∧
     jsIncludes (jsToLower ua) "mac" = false ∧ jsIncludes (jsToLower ua) "macintosh" = false ∧
     jsIncludes (jsToLower ua) "linux" = false ∧ jsIncludes (jsToLower ua) "x11" = false) := by
  constructor
  · intro h1 h2 h3 _h4
    simp [getOSInfo, h1, h2, h3]
  · intro hos
    revert hos
    simp only [getOSInfo]
    split_ifs with hw hm hl ha hi <;> intro hos <;> simp_all

/-- C10 (witness for the amended claim): part (a) at the Android-phone
shaped user-agent "linux android 13", part (b) at "android 13". -/
theorem c10_amended_witness :
    getOSInfo "linux android 13" = { os := "Linux", osVersion := "Linux" } ∧
    jsIncludes (jsToLower "android 13") "android" = true :=
  ⟨(c10_amended "linux android 13").1 (by decide) (by decide) (by decide) (by decide),
   ((c10_amended "android 13").2 (by decide)).1⟩

/-- C2 (counterexample): two Edge candidates at confidences 0.95 and 0.9
(scaled: 95, 90).  Edge wins, but the returned confidence is that of the
LAST Edge candidate (0.9), not the maximum (0.95): `browserResults` keeps
only the most recent candidate per label, while only `browserConfidences`
tracks the maximum, and `selectBestResult` reads the former. -/
theorem c2_counterexample :
    ([⟨"Edge", 95, "apiDetection"⟩, ⟨"Edge", 90, "vendorDetection"⟩] :
        List DetectionMethodResult) ≠ [] ∧
    (selectBestResult [⟨"Edge", 95, "apiDetection"⟩, ⟨"Edge", 90, "vendorDetection"⟩]).confidence ≠
      maxConfIn [⟨"Edge", 95, "apiDetection"⟩, ⟨"Edge", 90, "vendorDetection"⟩]
        (selectBestResult
          [⟨"Edge", 95, "apiDetection"⟩, ⟨"Edge", 90, "vendorDetection"⟩]).browser := by
  decide

/-- C2 (amended): for every non-empty candidate list, the confidence of
the fusion result equals the confidence of the LAST candidate in the list
whose label is the winning label (0 when no candidate carries the winning
label), because the per-label result record is overwritten by each later
candidate of the same label. -/
theorem c2_amended (l : List DetectionMethodResult) (h : l ≠ []) :
    (selectBestResult l).confidence =
      ((lastIn l (selectBestResult l).browser).map (fun r => r.confidence)).getD 0 := by
  simp only [selectBestResult]
  rw [groupsOf_find]
  cases hl : lastIn l ((l.foldl upsert []).foldl selStep ("Unknown", 0)).1 <;> simp [groupsOf, hl]

/-- C2 (witness for the amended claim): a singleton candidate list. -/
theorem c2_amended_witness :
    (selectBestResult [(⟨"Edge", 95, "apiDetection"⟩ : DetectionMethodResult)]).confidence =
      ((lastIn [⟨"Edge", 95, "apiDetection"⟩]
          (selectBestResult [(⟨"Edge", 95, "apiDetection"⟩ : DetectionMethodResult)]).browser).map
        (fun r => r.confidence)).getD 0 :=
  c2_amended [⟨"Edge", 95, "apiDetection"⟩] (by simp)

/-- C3 (counterexample): two extractors produced an Edge candidate
(0.85 and 0.7 scaled to 85 and 70), yet a later Chrome candidate with max
confidence 0.95 triggers the Chrome override and overwrites the running
best, so Chrome — not Edge — wins: the Edge rule is an overwrite of the
running best during a single non-early-exiting pass, not a veto gate. -/
theorem c3_counterexample :
    countIn [⟨"Edge", 85, "userAgentDetection"⟩, ⟨"Edge", 70, "cssDetection"⟩,
             ⟨"Chrome", 95, "apiDetection"⟩] "Edge" = 2 ∧
    (selectBestResult [⟨"Edge", 85, "userAgentDetection"⟩, ⟨"Edge", 70, "cssDetection"⟩,
             ⟨"Chrome", 95, "apiDetection"⟩]).browser ≠ "Edge" := by
  decide

/-- C3 (amended): if at least 2 extractors produced an Edge candidate,
Edge wins provided no label whose first occurrence comes after Edge's
first occurrence in the candidate list (i.e. is iterated after Edge in the
`Object.keys` order, represented by the `gs₂` suffix of the grouped
records) either is Chrome with max confidence ≥ 0.9 or has a
count × max-confidence score exceeding Edge's; such a later label
overwrites the running best regardless of the Edge rule. -/
theorem c3_amended (l : List DetectionMethodResult) (gs₁ gs₂ : List Group) (g : Group)
    (hsplit : groupsOf l = gs₁ ++ g :: gs₂)
    (hn1 : ∀ x ∈ gs₁, ¬ x.browser = "Edge")
    (hg : g.browser = "Edge")
    (h2 : 2 ≤ countIn l "Edge")
    (hafter : ∀ x ∈ gs₂, ¬ x.browser = "Edge" ∧ ¬(x.browser = "Chrome" ∧ 90 ≤ x.maxConf) ∧
        x.count * x.maxConf ≤ g.count * g.maxConf) :
    (selectBestResult l).browser = "Edge" := by
  have hfind : (groupsOf l).find? (fun x => x.browser == "Edge") = some g := by
    rw [hsplit, List.find?_append]
    have h₁ : gs₁.find? (fun x => x.browser == "Edge") = none :=
      List.find?_eq_none.2 (fun x hx => by simpa using hn1 x hx)
    have hg' : (g.browser == "Edge") = true := by simp [hg]
    rw [h₁]
    simp [List.find?, hg']
  have hcnt : g.count = countIn l "Edge" := by
    rw [groupsOf_find] at hfind
    cases hl : lastIn l "Edge" with
    | none => rw [hl] at hfind; simp at hfind
    | some r =>
      rw [hl] at hfind
      have hh := Option.some.inj hfind
      rw [← hh]
  have hc2 : 2 ≤ g.count := by rw [hcnt]; exact h2
  have hstep : ∀ s₀ : String × Nat, selStep s₀ g = ("Edge", g.count * g.maxConf) := by
    intro s₀
    unfold selStep
    rw [if_pos ⟨hg, hc2⟩, hg]
  have hsel : (groupsOf l).foldl selStep ("Unknown", 0) = ("Edge", g.count * g.maxConf) := by
    rw [hsplit, List.foldl_append, List.foldl_cons, hstep]
    exact selFold_const gs₂ _ hafter
  simp only [selectBestResult, groupsOf] at hsel ⊢
  rw [hsel]

/-- C3 (witness for the amended claim): every extractor agrees on Edge, so
the grouped records are the single Edge group and the side conditions are
vacuous. -/
theorem c3_amended_witness :
    (selectBestResult [⟨"Edge", 95, "apiDetection"⟩, ⟨"Edge", 90, "vendorDetection"⟩,
        ⟨"Edge", 85, "userAgentDetection"⟩]).browser = "Edge" :=
  c3_amended
    [⟨"Edge", 95, "apiDetection"⟩, ⟨"Edge", 90, "vendorDetection"⟩,
     ⟨"Edge", 85, "userAgentDetection"⟩]
    [] [] ⟨"Edge", 3, 95, ⟨"Edge", 85, "userAgentDetection"⟩⟩
    (by decide) (by simp) rfl (by decide) (by simp)

/-- C6: when every detection method either throws (and is swallowed by the
per-method catch) or reports the Unknown label, `detectBrowser` completes
normally on a cache miss and returns a `BrowserDetectionResult` with label
Unknown, confidence 0 and an empty contributing-extractor list (the
fallback skeleton result).  Totality of the embedded `detectBrowser`
witnesses the "raises no exception" half. -/
theorem c6_all_unknown_fallback (env : Env) (s : EngineState) (hc : s.cache = none)
    (h1 : env.apiThrows = true ∨ (apiDetection env).browser = "Unknown")
    (h2 : env.vendorThrows = true ∨ (vendorDetection env).browser = "Unknown")
    (h3 : env.uaThrows = true ∨ (userAgentDetection env).browser = "Unknown")
    (h4 : (cssDetection env).browser = "Unknown") :
    (detectBrowser env s).1.browser = "Unknown" ∧
    (detectBrowser env s).1.confidence = 0 ∧
    (detectBrowser env s).1.detectionMethods = [] := by
  have hms : methodResults env = [] := by
    rcases h1 with h1 | h1 <;> rcases h2 with h2 | h2 <;> rcases h3 with h3 | h3 <;>
      simp [methodResults, h1, h2, h3, h4] <;> aesop
  obtain ⟨c⟩ := s
  simp only at hc
  subst hc
  refine ⟨?_, ?_, ?_⟩ <;> simp [detectBrowser, hms]

/-- C6 (witness): the empty environment produces Unknown everywhere. -/
theorem c6_all_unknown_fallback_witness :
    (detectBrowser baseEnv ⟨none⟩).1.browser = "Unknown" ∧
    (detectBrowser baseEnv ⟨none⟩).1.confidence = 0 ∧
    (detectBrowser baseEnv ⟨none⟩).1.detectionMethods = [] :=
  c6_all_unknown_fallback baseEnv ⟨none⟩ rfl (Or.inr (by decide)) (Or.inr (by decide))
    (Or.inr (by decide)) (by decide)

/-- C7: on any engine state, a second `detectBrowser` call with the same
inputs and no intervening `clearCache` returns exactly the value of the
first call (the cached entry is returned without recomputation), and after
the first call `getCacheStats` reports the single slot filled (size 1, the
constant key). -/
theorem c7_cache_idempotent (env : Env) (s : EngineState) :
    (detectBrowser env (detectBrowser env s).2).1 = (detectBrowser env s).1 ∧
    getCacheStats (detectBrowser env s).2 = { size := 1, keys := ["browser_detection"] } := by
  obtain ⟨c⟩ := s
  cases c <;> simp [detectBrowser, getCacheStats]

end SBD

